import Mathlib

/-!
Shallow embedding of the provider-abstraction layer of the job-site parser
repository: the two adapter classes `HhAPI` / `SuperJobAPI` and their
controller utilities `ControllerHH` / `ControllerSuperJob`
(src/src/api/HhAPI.py, src/src/api/SuperJobAPI.py), together with the
canonical `Vacancy` record.

JSON payloads are modelled by an inductive `Json` type; the handful of
Python primitives the adapters use (`dict.get`, `float`, `int`, `str`,
`len`, truthiness, `== 0` / `!= 0` comparison against the integer zero,
`is not None`) are modelled by small total functions, with Python
exceptions (`AttributeError`, `TypeError`, `ValueError`, `KeyError`)
represented by `Except String`.
-/

/-- JSON values as received from either provider.  Numbers are modelled by
`Int`: every claim under study only distinguishes zero / non-zero / null,
never fractional values. -/
inductive Json where
  | null : Json
  | num : Int → Json
  | str : String → Json
  | arr : List Json → Json
  | obj : List (String × Json) → Json

/-- Key lookup in a JSON object; `none` when the key is missing or the
value is not an object (association-list semantics of a Python dict). -/
def Json.lookup : Json → String → Option Json
  | .obj fields, k => fields.lookup k
  | _, _ => none

/-- `j.get(k, d)` on a value already known to be a dict: the stored value,
or the default `d` when the key is absent. -/
def Json.getD (j : Json) (k : String) (d : Json) : Json :=
  (j.lookup k).getD d

/-- Python `x.get(k, d)`: succeeds with the stored value or the default
when `x` is a dict, raises `AttributeError` on any other value (this is
what `"Нет данных".get(...)` does in `HhAPI._parse`). -/
def Json.pyGet (j : Json) (k : String) (d : Json) : Except String Json :=
  match j with
  | .obj _ => .ok (j.getD k d)
  | _ => .error "AttributeError: object has no attribute get"

/-- Python truthiness of a JSON value (`if salary:`): `None`, `0`, empty
string, empty list and empty dict are falsy. -/
def Json.truthy : Json → Bool
  | .null => false
  | .num n => n != 0
  | .str s => !s.isEmpty
  | .arr xs => !xs.isEmpty
  | .obj fields => !fields.isEmpty

/-- Python `x is None`. -/
def Json.isNull : Json → Bool
  | .null => true
  | _ => false

/-- Python `x == 0` against the integer zero (strings, `None`, containers
compare unequal). -/
def Json.pyEqZero : Json → Bool
  | .num n => n == 0
  | _ => false

/-- Python `float(x)`: identity on numbers, numeral parsing on strings,
`TypeError` on `None` and containers.  The float image of an integer
payload value is represented by the integer itself. -/
def pyFloat : Json → Except String Int
  | .num n => .ok n
  | .str s =>
    match s.toInt? with
    | some n => .ok n
    | none => .error "ValueError: could not convert string to float"
  | .null => .error "TypeError: float() argument must not be NoneType"
  | _ => .error "TypeError: float() argument"

/-- Python `int(x)`: identity on numbers, numeral parsing on strings
(`int("Нет данных")` raises `ValueError`), `TypeError` otherwise. -/
def pyInt : Json → Except String Int
  | .num n => .ok n
  | .str s =>
    match s.toInt? with
    | some n => .ok n
    | none => .error "ValueError: invalid literal for int"
  | _ => .error "TypeError: int() argument"

/-- Python `str(x)`.  `str(None) = "None"`; the rendering of containers is
abstracted (no claim inspects it). -/
def pyStr : Json → String
  | .null => "None"
  | .num n => toString n
  | .str s => s
  | .arr _ => "[...]"
  | .obj _ => "\x7b...\x7d"

/-- Python `len(x)`: `TypeError` on numbers and `None`. -/
def pyLen : Json → Except String Nat
  | .str s => .ok s.length
  | .arr xs => .ok xs.length
  | .obj fields => .ok fields.length
  | _ => .error "TypeError: object has no len"

/-- Modelled from the spec: the canonical `Vacancy` value record
(src/models/Vacancy.py is not under src/; spec §3 fixes its nine fields
and their optionality, and both adapters construct it positionally in this
field order). -/
structure Vacancy where
  id : Int
  title : String
  employer_name : String
  requirement_snippet : String
  salary_from : Option Int
  salary_to : Option Int
  currency : Option String
  location_name : String
  url : String

/-- Outcome of the one `requests.get` call of a `get_request` invocation:
either an HTTP response with a status code and JSON body, or a
transport-level failure (`requests.exceptions.RequestException`: connection
refused, timeout, DNS failure, ...), tagged with its kind. -/
inductive HttpResult where
  | success : Nat → Json → HttpResult
  | transportError : String → HttpResult

/-- Lines 86–93 of HhAPI.py: the salary triple of one item.
`salary = item.get('salary', {})`; when truthy, each of `from`/`to`/
`currency` is converted iff it `is not None`; otherwise all three are
`None`. -/
def HhAPI.salaryOf (item : Json) : Except String (Option Int × Option Int × Option String) := do
  let salary ← item.pyGet "salary" (Json.obj [])
  if salary.truthy then
    let fv ← salary.pyGet "from" Json.null
    let from_salary ← if !fv.isNull then (pyFloat fv).map some else .ok none
    let tv ← salary.pyGet "to" Json.null
    let to_salary ← if !tv.isNull then (pyFloat tv).map some else .ok none
    let cv ← salary.pyGet "currency" Json.null
    let currency := if !cv.isNull then some (pyStr cv) else none
    .ok (from_salary, to_salary, currency)
  else
    .ok (none, none, none)

/-- Lines 95–105 of HhAPI.py: one `Vacancy(...)` construction; constructor
arguments are evaluated left to right after the salary block.  Note the
slip at line 99: the default for the missing `snippet` key is the *string*
`"Нет данных"`, on which `.get('requirement', ...)` raises
`AttributeError`. -/
def HhAPI.parseItem (item : Json) : Except String Vacancy := do
  let (from_salary, to_salary, currency) ← HhAPI.salaryOf item
  let id ← pyInt (← item.pyGet "id" (Json.str "Нет данных"))
  let name ← item.pyGet "name" (Json.str "Нет данных")
  let employer ← item.pyGet "employer" (Json.obj [])
  let employer_name ← employer.pyGet "name" (Json.str "Нет данных")
  let snippet ← item.pyGet "snippet" (Json.str "Нет данных")
  let requirement ← snippet.pyGet "requirement" (Json.str "Нет данных")
  let area ← item.pyGet "area" (Json.obj [])
  let area_name ← area.pyGet "name" (Json.str "Нет данных")
  let alternate_url ← item.pyGet "alternate_url" (Json.str "Нет данных")
  .ok (Vacancy.mk id (pyStr name) (pyStr employer_name) (pyStr requirement)
        from_salary to_salary currency (pyStr area_name) (pyStr alternate_url))

/-- `HhAPI._parse`: iterates `data_from_json.get('items')` (a `for` over
`None` or a non-list raises `TypeError`), building one `Vacancy` per item;
the first exception aborts the whole call. -/
def HhAPI.parse (data_from_json : Json) : Except String (List Vacancy) := do
  let itemsv ← data_from_json.pyGet "items" Json.null
  match itemsv with
  | .arr items => items.mapM HhAPI.parseItem
  | _ => .error "TypeError: object is not iterable"

/-- `HhAPI.get_request`, lines 49–70, after the `requests.get` call has
been resolved to `resp`.  `Option (List Vacancy)` is the Python return
value: `some l` a list, `none` the implicit `None` of the fall-through
statuses.  `.error` is an uncaught exception: the bare
`Exception("Request failed (404 status code)")` and any exception from
parsing escape, since `except` only catches `RequestException`. -/
def HhAPI.get_request (resp : HttpResult) : Except String (Option (List Vacancy)) :=
  match resp with
  | .transportError _ => .ok (some [])
  | .success status body =>
    if status = 200 then
      match body.lookup "found" with
      | none => .error "KeyError: found"
      | some foundv =>
        if foundv.pyEqZero then .ok (some [])
        else
          match HhAPI.parse body with
          | .ok l => .ok (some l)
          | .error e => .error e
    else if status = 404 then .error "Request failed (404 status code)"
    else .ok none

/-- One node of the `/areas` region catalog (spec §6: each node carries
`id`, `name`, and optionally `areas` children; `ControllerHH.get_city_id`
reads exactly these three keys).  An absent `areas` key and an empty
`areas` list are both modelled by `areas = []`: the guard
`"areas" in country and country["areas"]` treats the two identically. -/
inductive AreaNode where
  | mk : String → String → List AreaNode → AreaNode

def AreaNode.id : AreaNode → String
  | .mk i _ _ => i

def AreaNode.name : AreaNode → String
  | .mk _ n _ => n

def AreaNode.areas : AreaNode → List AreaNode
  | .mk _ _ a => a

/-- The inner loop of `ControllerHH.get_city_id` (lines 143–145): first
third-level node whose `name` equals the city. -/
def ControllerHH.findRegion (city : String) : List AreaNode → Option String
  | [] => none
  | region :: rest =>
    if region.name = city then some region.id
    else ControllerHH.findRegion city rest

/-- The middle loop (lines 141–147): for each second-level node, search its
children when `"areas" in country and country["areas"]` is non-empty,
otherwise compare the node's own name. -/
def ControllerHH.findCountry (city : String) : List AreaNode → Option String
  | [] => none
  | country :: rest =>
    if !country.areas.isEmpty then
      match ControllerHH.findRegion city country.areas with
      | some i => some i
      | none => ControllerHH.findCountry city rest
    else if country.name = city then some country.id
    else ControllerHH.findCountry city rest

/-- The outer loop (line 140): iterate the top-level nodes, searching each
one's `areas` children (a top-level node's own name is never compared). -/
def ControllerHH.findArea (city : String) : List AreaNode → Option String
  | [] => none
  | area :: rest =>
    match ControllerHH.findCountry city area.areas with
    | some i => some i
    | none => ControllerHH.findArea city rest

/-- `ControllerHH.get_city_id` over an abstract catalog: the second
component counts the network requests issued (`requests.get("…/areas")`
runs exactly once, and only when the city name is non-empty). -/
def ControllerHH.get_city_id (city : String) (catalog : List AreaNode) :
    Option String × Nat :=
  if city.length = 0 then (none, 0)
  else (ControllerHH.findArea city catalog, 1)

/-- `ControllerHH.order_by` (lines 149–166); the argument is `Option` so
that the absent (`None`) input is representable. -/
def ControllerHH.order_by (param : Option String) : Option String :=
  if param = some "1" then some "publication_time"
  else if param = some "2" then some "salary_desc"
  else none

/-- Lines 96–98 of SuperJobAPI.py: the salary triple of one item.  Each
bound is converted by `float(...)` unless the fetched value compares
`== 0`; `float(None)` (missing key) raises `TypeError`.  The currency is
unconditionally `str(item.get('currency'))` — always a present string,
`"None"` when the key is missing. -/
def SuperJobAPI.salaryOf (item : Json) : Except String (Option Int × Option Int × String) := do
  let pf ← item.pyGet "payment_from" Json.null
  let from_salary ← if !pf.pyEqZero then (pyFloat pf).map some else .ok none
  let pt ← item.pyGet "payment_to" Json.null
  let to_salary ← if !pt.pyEqZero then (pyFloat pt).map some else .ok none
  let cv ← item.pyGet "currency" Json.null
  .ok (from_salary, to_salary, pyStr cv)

/-- Lines 100–110 of SuperJobAPI.py: one `Vacancy(...)` construction;
constructor arguments are evaluated left to right after the salary
lines. -/
def SuperJobAPI.parseItem (item : Json) : Except String Vacancy := do
  let (from_salary, to_salary, currency) ← SuperJobAPI.salaryOf item
  let id ← pyInt (← item.pyGet "id" (Json.str "Нет данных"))
  let profession ← item.pyGet "profession" (Json.str "Нет данных")
  let employer ← item.pyGet "employer" (Json.obj [])
  let employer_name ← employer.pyGet "name" (Json.str "Нет данных")
  let candidat ← item.pyGet "candidat" (Json.str "Нет данных")
  let town ← item.pyGet "town" (Json.obj [])
  let town_title ← town.pyGet "title" (Json.str "Нет данных")
  let link ← item.pyGet "link" (Json.str "Нет данных")
  .ok (Vacancy.mk id (pyStr profession) (pyStr employer_name) (pyStr candidat)
        from_salary to_salary (some currency) (pyStr town_title) (pyStr link))

/-- `SuperJobAPI._parse`: iterates `raw_response.get('objects')`, building
one `Vacancy` per item; the first exception aborts the whole call. -/
def SuperJobAPI.parse (raw_response : Json) : Except String (List Vacancy) := do
  let objectsv ← raw_response.pyGet "objects" Json.null
  match objectsv with
  | .arr objects => objects.mapM SuperJobAPI.parseItem
  | _ => .error "TypeError: object is not iterable"

/-- `SuperJobAPI.get_request`, lines 51–80, after the `requests.get` call
has been resolved to `resp`.  On status 200 the guard is `len(data) == 0`
(`TypeError` when the body has no length); 404 raises the bare
`Exception`, uncaught by the `RequestException` handler; other statuses
fall through to the implicit `None`. -/
def SuperJobAPI.get_request (resp : HttpResult) : Except String (Option (List Vacancy)) :=
  match resp with
  | .transportError _ => .ok (some [])
  | .success status body =>
    if status = 200 then
      match pyLen body with
      | .error e => .error e
      | .ok n =>
        if n = 0 then .ok (some [])
        else
          match SuperJobAPI.parse body with
          | .ok l => .ok (some l)
          | .error e => .error e
    else if status = 404 then .error "Request failed (404 status code)"
    else .ok none

/-- One entry of the `/towns/` catalog (spec §6: an `objects` collection of
`{id, title}`); `ControllerSuperJob.validate_city` reads only `title`. -/
structure Town where
  id : Int
  title : String

/-- The loop of `ControllerSuperJob.validate_city` (lines 153–155): return
the city itself on the first exact `title` match. -/
def ControllerSuperJob.findTown (city : String) : List Town → Option String
  | [] => none
  | item :: rest =>
    if item.title = city then some city
    else ControllerSuperJob.findTown city rest

/-- `ControllerSuperJob.validate_city` over an abstract town list: the
second component counts the network requests issued (the `/towns/` fetch
runs exactly once, and only when the city name is non-empty). -/
def ControllerSuperJob.validate_city (city : String) (towns : List Town) :
    Option String × Nat :=
  if city.length = 0 then (none, 0)
  else (ControllerSuperJob.findTown city towns, 1)

/-- `ControllerSuperJob.order_by` (lines 158–174); the argument is `Option`
so that the absent (`None`) input is representable. -/
def ControllerSuperJob.order_by (param : Option String) : String :=
  if param = some "1" then "date"
  else if param = some "2" then "payment_desc"
  else "relevance"

/-!
Reference definitions following the spec's words (for the location-search
refinement claim), and concrete payloads used as test inputs.
-/

/-- First pair in the list whose name component equals the city; its id is
the search result (spec: "first matching node in catalog traversal order
wins"). -/
def firstMatch (city : String) : List (String × String) → Option String
  | [] => none
  | (n, i) :: rest => if n = city then some i else firstMatch city rest

/-- The (name, id) pairs of a run of third-level nodes, in traversal
order. -/
def ControllerHH.regionPairs : List AreaNode → List (String × String)
  | [] => []
  | r :: rs => (r.name, r.id) :: ControllerHH.regionPairs rs

/-- The (name, id) pairs a run of second-level nodes exposes to the
search: the third-level children when there are any, otherwise the node
itself. -/
def ControllerHH.countryPairs : List AreaNode → List (String × String)
  | [] => []
  | c :: cs =>
    (if !c.areas.isEmpty then ControllerHH.regionPairs c.areas else [(c.name, c.id)])
      ++ ControllerHH.countryPairs cs

/-- All (name, id) pairs the catalog search consults, in traversal order;
top-level nodes contribute no pair of their own. -/
def ControllerHH.searchedPairs : List AreaNode → List (String × String)
  | [] => []
  | a :: rest => ControllerHH.countryPairs a.areas ++ ControllerHH.searchedPairs rest

/-- Board B result item reporting zero for both salary bounds and carrying
no currency key (per spec §3/§8, zero bounds mean "no salary provided"). -/
def sjNoSalaryItem : Json :=
  .obj [("id", .num 5), ("profession", .str "Developer"), ("payment_from", .num 0),
        ("payment_to", .num 0), ("candidat", .str "Requirements"), ("link", .str "http://sj/5")]

/-- The vacancy `SuperJobAPI._parse` produces for `sjNoSalaryItem`. -/
def sjNoSalaryVacancy : Vacancy :=
  Vacancy.mk 5 "Developer" "Нет данных" "Requirements" none none (some "None")
    "Нет данных" "http://sj/5"

/-- Board A result item with no `salary` key at all. -/
def hhNoSalaryItem : Json :=
  .obj [("id", .num 3), ("name", .str "QA"), ("employer", .obj [("name", .str "Acme")]),
        ("snippet", .obj [("requirement", .str "experience")]),
        ("area", .obj [("name", .str "Москва")]), ("alternate_url", .str "http://hh/3")]

/-- The vacancy `HhAPI._parse` produces for `hhNoSalaryItem`. -/
def hhNoSalaryVacancy : Vacancy :=
  Vacancy.mk 3 "QA" "Acme" "experience" none none none "Москва" "http://hh/3"

/-- Board A result item whose salary object reports `from = 0, to = 0`. -/
def hhZeroSalaryItem : Json :=
  .obj [("id", .num 4), ("name", .str "Engineer"),
        ("salary", .obj [("from", .num 0), ("to", .num 0), ("currency", .str "RUR")]),
        ("employer", .obj [("name", .str "Acme")]),
        ("snippet", .obj [("requirement", .str "experience")]),
        ("area", .obj [("name", .str "Москва")]), ("alternate_url", .str "http://hh/4")]

/-- The vacancy `HhAPI._parse` produces for `hhZeroSalaryItem`. -/
def hhZeroSalaryVacancy : Vacancy :=
  Vacancy.mk 4 "Engineer" "Acme" "experience" (some 0) (some 0) (some "RUR")
    "Москва" "http://hh/4"

/-- Board A result item lacking the `snippet` key entirely. -/
def hhNoSnippetItem : Json :=
  .obj [("id", .num 7), ("name", .str "Python Dev"), ("employer", .obj [("name", .str "Acme")]),
        ("salary", Json.null), ("area", .obj [("name", .str "Москва")]),
        ("alternate_url", .str "http://hh/7")]

/-- A 200 response body whose single item is `hhNoSnippetItem`. -/
def hhNoSnippetBody : Json := .obj [("found", .num 1), ("items", .arr [hhNoSnippetItem])]

/-!
Helper lemmas shared by the claim theorems.
-/

/-- Inversion of a successful `Except` bind. -/
theorem exceptBindOk {α β : Type} {x : Except String α} {f : α → Except String β} {b : β}
    (h : x >>= f = .ok b) : ∃ a, x = .ok a ∧ f a = .ok b := by
  cases x with
  | error e => simp [Bind.bind, Except.bind] at h
  | ok a => exact ⟨a, rfl, by simpa [Bind.bind, Except.bind] using h⟩

/-- A vacancy successfully parsed by Board A carries exactly the salary
triple its salary block computed. -/
theorem hhParseItemSalaryOf {item : Json} {v : Vacancy}
    (h : HhAPI.parseItem item = .ok v) :
    HhAPI.salaryOf item = .ok (v.salary_from, v.salary_to, v.currency) := by
  unfold HhAPI.parseItem at h
  obtain ⟨⟨f, t, c⟩, h1, h⟩ := exceptBindOk h
  obtain ⟨idv, h2, h⟩ := exceptBindOk h
  obtain ⟨id, h3, h⟩ := exceptBindOk h
  obtain ⟨namev, h4, h⟩ := exceptBindOk h
  obtain ⟨employer, h5, h⟩ := exceptBindOk h
  obtain ⟨employer_name, h6, h⟩ := exceptBindOk h
  obtain ⟨snippet, h7, h⟩ := exceptBindOk h
  obtain ⟨requirement, h8, h⟩ := exceptBindOk h
  obtain ⟨area, h9, h⟩ := exceptBindOk h
  obtain ⟨area_name, h10, h⟩ := exceptBindOk h
  obtain ⟨alternate_url, h11, h⟩ := exceptBindOk h
  cases h
  exact h1

/-- A vacancy successfully parsed by Board B carries the salary bounds its
salary lines computed, and its currency is the `some` of the computed
currency string. -/
theorem sjParseItemSalaryOf {item : Json} {v : Vacancy}
    (h : SuperJobAPI.parseItem item = .ok v) :
    ∃ cur, SuperJobAPI.salaryOf item = .ok (v.salary_from, v.salary_to, cur) ∧
      v.currency = some cur := by
  unfold SuperJobAPI.parseItem at h
  obtain ⟨⟨f, t, c⟩, h1, h⟩ := exceptBindOk h
  obtain ⟨idv, h2, h⟩ := exceptBindOk h
  obtain ⟨id, h3, h⟩ := exceptBindOk h
  obtain ⟨profession, h4, h⟩ := exceptBindOk h
  obtain ⟨employer, h5, h⟩ := exceptBindOk h
  obtain ⟨employer_name, h6, h⟩ := exceptBindOk h
  obtain ⟨candidat, h7, h⟩ := exceptBindOk h
  obtain ⟨town, h8, h⟩ := exceptBindOk h
  obtain ⟨town_title, h9, h⟩ := exceptBindOk h
  obtain ⟨link, h10, h⟩ := exceptBindOk h
  cases h
  exact ⟨c, h1, rfl⟩

/-- When the fetched salary value of a Board A item is falsy (missing key,
`null`, or empty object), the whole salary triple is absent. -/
theorem HhAPI.salaryOf_not_truthy {item : Json} {f t : Option Int} {c : Option String}
    (h : HhAPI.salaryOf item = .ok (f, t, c))
    (hs : (Json.getD item "salary" (Json.obj [])).truthy = false) :
    f = none ∧ t = none ∧ c = none := by
  cases item with
  | obj fields =>
    unfold HhAPI.salaryOf at h
    obtain ⟨salary, h1, h⟩ := exceptBindOk h
    simp [Json.pyGet] at h1
    subst h1
    rw [hs] at h
    simp at h
    exact ⟨h.1.symm, h.2.1.symm, h.2.2.symm⟩
  | null => simp [HhAPI.salaryOf, Json.pyGet, Bind.bind, Except.bind] at h
  | num n => simp [HhAPI.salaryOf, Json.pyGet, Bind.bind, Except.bind] at h
  | str s => simp [HhAPI.salaryOf, Json.pyGet, Bind.bind, Except.bind] at h
  | arr xs => simp [HhAPI.salaryOf, Json.pyGet, Bind.bind, Except.bind] at h

/-- When the salary object of a Board A item binds `from` to the number
`n`, the parsed lower bound is `some n` — whatever `n`, zero included. -/
theorem HhAPI.salaryOf_from_num {item : Json} {f t : Option Int} {c : Option String}
    {sf : List (String × Json)} {n : Int}
    (h : HhAPI.salaryOf item = .ok (f, t, c))
    (hsal : item.lookup "salary" = some (Json.obj sf))
    (hf : sf.lookup "from" = some (Json.num n)) :
    f = some n := by
  cases item with
  | obj fields =>
    unfold HhAPI.salaryOf at h
    obtain ⟨salary, h1, h⟩ := exceptBindOk h
    simp [Json.pyGet, Json.getD, Json.lookup] at h1
    rw [Json.lookup] at hsal
    rw [hsal] at h1
    simp at h1
    subst h1
    have htr : (Json.obj sf).truthy = true := by
      cases sf with
      | nil => simp [List.lookup] at hf
      | cons a l => simp [Json.truthy]
    rw [htr] at h
    simp at h
    obtain ⟨fv, h2, h⟩ := exceptBindOk h
    simp [Json.pyGet, Json.getD, Json.lookup, hf] at h2
    subst h2
    obtain ⟨from_salary, h3, h⟩ := exceptBindOk h
    simp [Json.isNull, pyFloat, Except.map] at h3
    subst h3
    obtain ⟨tv, h4, h⟩ := exceptBindOk h
    split at h
    · obtain ⟨y, h5, h⟩ := exceptBindOk h
      obtain ⟨cv, h6, h⟩ := exceptBindOk h
      cases h
      rfl
    · obtain ⟨y, h5, h⟩ := exceptBindOk h
      obtain ⟨cv, h6, h⟩ := exceptBindOk h
      cases h
      rfl
  | null => simp [Json.lookup] at hsal
  | num m => simp [Json.lookup] at hsal
  | str s => simp [Json.lookup] at hsal
  | arr xs => simp [Json.lookup] at hsal

/-- When a Board B item reports `payment_from = 0`, the parsed lower bound
is absent. -/
theorem SuperJobAPI.salaryOf_from_zero {item : Json} {f t : Option Int} {c : String}
    (h : SuperJobAPI.salaryOf item = .ok (f, t, c))
    (hz : Json.getD item "payment_from" Json.null = Json.num 0) :
    f = none := by
  cases item with
  | obj fields =>
    unfold SuperJobAPI.salaryOf at h
    obtain ⟨pf, h1, h⟩ := exceptBindOk h
    simp [Json.pyGet] at h1
    rw [hz] at h1
    subst h1
    simp [Json.pyEqZero] at h
    obtain ⟨from_salary, h2, h⟩ := exceptBindOk h
    simp at h2
    subst h2
    obtain ⟨pt, h3, h⟩ := exceptBindOk h
    split at h
    · obtain ⟨y, h4, h⟩ := exceptBindOk h
      obtain ⟨cv, h5, h⟩ := exceptBindOk h
      cases h
      rfl
    · obtain ⟨y, h4, h⟩ := exceptBindOk h
      obtain ⟨cv, h5, h⟩ := exceptBindOk h
      cases h
      rfl
  | null => simp [SuperJobAPI.salaryOf, Json.pyGet, Bind.bind, Except.bind] at h
  | num n => simp [SuperJobAPI.salaryOf, Json.pyGet, Bind.bind, Except.bind] at h
  | str s => simp [SuperJobAPI.salaryOf, Json.pyGet, Bind.bind, Except.bind] at h
  | arr xs => simp [SuperJobAPI.salaryOf, Json.pyGet, Bind.bind, Except.bind] at h

/-- When a Board B item reports `payment_to = 0`, the parsed upper bound is
absent. -/
theorem SuperJobAPI.salaryOf_to_zero {item : Json} {f t : Option Int} {c : String}
    (h : SuperJobAPI.salaryOf item = .ok (f, t, c))
    (hz : Json.getD item "payment_to" Json.null = Json.num 0) :
    t = none := by
  cases item with
  | obj fields =>
    unfold SuperJobAPI.salaryOf at h
    obtain ⟨pf, h1, h⟩ := exceptBindOk h
    split at h
    · obtain ⟨y, h2, h⟩ := exceptBindOk h
      obtain ⟨pt, h3, h⟩ := exceptBindOk h
      simp [Json.pyGet] at h3
      rw [hz] at h3
      subst h3
      simp [Json.pyEqZero] at h
      obtain ⟨to_salary, h4, h⟩ := exceptBindOk h
      simp at h4
      subst h4
      obtain ⟨cv, h5, h⟩ := exceptBindOk h
      cases h
      rfl
    · obtain ⟨y, h2, h⟩ := exceptBindOk h
      obtain ⟨pt, h3, h⟩ := exceptBindOk h
      simp [Json.pyGet] at h3
      rw [hz] at h3
      subst h3
      simp [Json.pyEqZero] at h
      obtain ⟨to_salary, h4, h⟩ := exceptBindOk h
      simp at h4
      subst h4
      obtain ⟨cv, h5, h⟩ := exceptBindOk h
      cases h
      rfl
  | null => simp [SuperJobAPI.salaryOf, Json.pyGet, Bind.bind, Except.bind] at h
  | num n => simp [SuperJobAPI.salaryOf, Json.pyGet, Bind.bind, Except.bind] at h
  | str s => simp [SuperJobAPI.salaryOf, Json.pyGet, Bind.bind, Except.bind] at h
  | arr xs => simp [SuperJobAPI.salaryOf, Json.pyGet, Bind.bind, Except.bind] at h

/-- A Board B item with no `payment_from` key makes the item parser raise:
`float(None)` is a `TypeError`. -/
theorem SuperJobAPI.parseItem_missing_from {fields : List (String × Json)}
    (hpf : fields.lookup "payment_from" = none) :
    SuperJobAPI.parseItem (Json.obj fields) =
      .error "TypeError: float() argument must not be NoneType" := by
  unfold SuperJobAPI.parseItem SuperJobAPI.salaryOf
  simp [Json.pyGet, Json.getD, Json.lookup, hpf, Json.pyEqZero, Json.isNull, pyFloat,
    Bind.bind, Except.bind, Except.map]

/-- `firstMatch` over an append searches the left run first. -/
theorem firstMatch_append (city : String) (l₁ l₂ : List (String × String)) :
    firstMatch city (l₁ ++ l₂) =
      (match firstMatch city l₁ with
       | some i => some i
       | none => firstMatch city l₂) := by
  induction l₁ with
  | nil => simp [firstMatch]
  | cons p rest ih =>
    obtain ⟨n, i⟩ := p
    by_cases hn : n = city
    · simp [firstMatch, hn]
    · simp [firstMatch, hn, ih]

/-- The inner loop is the first-match search over the third-level pairs. -/
theorem ControllerHH.findRegion_eq (city : String) (rs : List AreaNode) :
    ControllerHH.findRegion city rs = firstMatch city (ControllerHH.regionPairs rs) := by
  induction rs with
  | nil => rfl
  | cons r rest ih =>
    by_cases hn : r.name = city
    · simp [ControllerHH.findRegion, ControllerHH.regionPairs, firstMatch, hn]
    · simp [ControllerHH.findRegion, ControllerHH.regionPairs, firstMatch, hn, ih]

/-- The middle loop is the first-match search over the pairs its run of
second-level nodes exposes. -/
theorem ControllerHH.findCountry_eq (city : String) (cs : List AreaNode) :
    ControllerHH.findCountry city cs = firstMatch city (ControllerHH.countryPairs cs) := by
  induction cs with
  | nil => rfl
  | cons c rest ih =>
    by_cases hne : c.areas.isEmpty
    · by_cases hn : c.name = city
      · simp [ControllerHH.findCountry, ControllerHH.countryPairs, hne, firstMatch, hn]
      · simp [ControllerHH.findCountry, ControllerHH.countryPairs, hne, firstMatch, hn, ih]
    · rw [ControllerHH.findCountry, ControllerHH.countryPairs]
      simp only [hne]
      rw [firstMatch_append, ControllerHH.findRegion_eq city c.areas, ih]
      simp

/-- The whole catalog search is the first-match search over all searched
pairs in traversal order. -/
theorem ControllerHH.findArea_eq (city : String) (catalog : List AreaNode) :
    ControllerHH.findArea city catalog = firstMatch city (ControllerHH.searchedPairs catalog) := by
  induction catalog with
  | nil => rfl
  | cons a rest ih =>
    rw [ControllerHH.findArea, ControllerHH.searchedPairs, firstMatch_append,
      ControllerHH.findCountry_eq city a.areas, ih]

/-- A non-empty string has non-zero length. -/
theorem String.length_ne_zero {s : String} (h : s ≠ "") : s.length ≠ 0 := by
  intro h0
  apply h
  cases s with
  | mk data =>
    cases data with
    | nil => rfl
    | cons a l => simp [String.length] at h0

/-- The town loop finds a city that occurs as a title. -/
theorem ControllerSuperJob.findTown_eq_some {city : String} {towns : List Town}
    (h : ∃ t ∈ towns, t.title = city) :
    ControllerSuperJob.findTown city towns = some city := by
  induction towns with
  | nil => simp at h
  | cons t rest ih =>
    by_cases hn : t.title = city
    · simp [ControllerSuperJob.findTown, hn]
    · rw [ControllerSuperJob.findTown, if_neg hn]
      apply ih
      obtain ⟨u, hu, hut⟩ := h
      cases hu with
      | head => exact absurd hut hn
      | tail _ hmem => exact ⟨u, hmem, hut⟩

/-- The town loop misses a city that occurs as no title. -/
theorem ControllerSuperJob.findTown_eq_none {city : String} {towns : List Town}
    (h : ∀ t ∈ towns, t.title ≠ city) :
    ControllerSuperJob.findTown city towns = none := by
  induction towns with
  | nil => rfl
  | cons t rest ih =>
    rw [ControllerSuperJob.findTown, if_neg (h t (List.mem_cons_self t rest))]
    exact ih fun u hu => h u (List.mem_cons_of_mem t hu)

/-- C1 (counterexample): a Board B item with zero salary bounds and no
currency key produces a *partial* triple — both bounds absent but currency
present (the string "None") — refuting "all absent together, never a
partial triple" for Board B. -/
theorem c1_counterexample :
    SuperJobAPI.parse (Json.obj [("objects", Json.arr [sjNoSalaryItem])]) =
      .ok [sjNoSalaryVacancy] ∧
    sjNoSalaryVacancy.salary_from = none ∧ sjNoSalaryVacancy.salary_to = none ∧
    sjNoSalaryVacancy.currency = some "None" :=
  ⟨rfl, rfl, rfl, rfl⟩

/-- C1 (amended): on Board A, a vacancy parsed from an item whose salary
value is falsy (missing, null, or empty) has `salary_from`, `salary_to`
and `currency` all absent together; on Board B, every parsed vacancy has a
*present* currency string, so the all-absent triple never occurs there. -/
theorem c1_salary_triple :
    (∀ item v, HhAPI.parseItem item = .ok v →
        (Json.getD item "salary" (Json.obj [])).truthy = false →
        v.salary_from = none ∧ v.salary_to = none ∧ v.currency = none) ∧
    (∀ item v, SuperJobAPI.parseItem item = .ok v → v.currency ≠ none) := by
  constructor
  · intro item v h htr
    exact HhAPI.salaryOf_not_truthy (hhParseItemSalaryOf h) htr
  · intro item v h
    obtain ⟨cur, _, hc⟩ := sjParseItemSalaryOf h
    rw [hc]
    simp

/-- C1 (witness): the amended theorem applied to a Board A item with no
salary key and to the zero-salary Board B item. -/
theorem c1_witness :
    (hhNoSalaryVacancy.salary_from = none ∧ hhNoSalaryVacancy.salary_to = none ∧
      hhNoSalaryVacancy.currency = none) ∧
    sjNoSalaryVacancy.currency ≠ none :=
  ⟨c1_salary_triple.1 hhNoSalaryItem hhNoSalaryVacancy rfl rfl,
   c1_salary_triple.2 sjNoSalaryItem sjNoSalaryVacancy rfl⟩

/-- C2 (counterexample): a Board A item whose salary object reports
`from = 0, to = 0` parses into a vacancy with *present* salary bounds
`some 0`, refuting "a source value of exactly zero yields an absent salary
field" for Board A. -/
theorem c2_counterexample :
    HhAPI.parseItem hhZeroSalaryItem = .ok hhZeroSalaryVacancy ∧
    hhZeroSalaryVacancy.salary_from = some 0 ∧ hhZeroSalaryVacancy.salary_to = some 0 :=
  ⟨rfl, rfl, rfl⟩

/-- C2 (amended): on Board B a salary bound of exactly zero is parsed as
absent, while a bound whose key is missing raises a `TypeError`; on Board A
a bound bound to any number in the salary object — zero included — is
parsed as that number. -/
theorem c2_zero_salary :
    (∀ item v, SuperJobAPI.parseItem item = .ok v →
        (Json.getD item "payment_from" Json.null = Json.num 0 → v.salary_from = none) ∧
        (Json.getD item "payment_to" Json.null = Json.num 0 → v.salary_to = none)) ∧
    (∀ item v (sf : List (String × Json)) (n : Int), HhAPI.parseItem item = .ok v →
        item.lookup "salary" = some (Json.obj sf) →
        sf.lookup "from" = some (Json.num n) → v.salary_from = some n) ∧
    (∀ fields : List (String × Json), fields.lookup "payment_from" = none →
        SuperJobAPI.parseItem (Json.obj fields) =
          .error "TypeError: float() argument must not be NoneType") := by
  refine ⟨?_, ?_, ?_⟩
  · intro item v h
    obtain ⟨cur, hs, _⟩ := sjParseItemSalaryOf h
    exact ⟨fun hz => SuperJobAPI.salaryOf_from_zero hs hz,
           fun hz => SuperJobAPI.salaryOf_to_zero hs hz⟩
  · intro item v sf n h hsal hf
    exact HhAPI.salaryOf_from_num (hhParseItemSalaryOf h) hsal hf
  · intro fields hpf
    exact SuperJobAPI.parseItem_missing_from hpf

/-- C2 (witness): the amended theorem applied to the zero-salary Board B
item, the zero-salary Board A item, and a Board B item missing
`payment_from`. -/
theorem c2_witness :
    sjNoSalaryVacancy.salary_from = none ∧
    hhZeroSalaryVacancy.salary_from = some 0 ∧
    SuperJobAPI.parseItem (Json.obj [("id", Json.num 1)]) =
      .error "TypeError: float() argument must not be NoneType" :=
  ⟨(c2_zero_salary.1 sjNoSalaryItem sjNoSalaryVacancy rfl).1 rfl,
   c2_zero_salary.2.1 hhZeroSalaryItem hhZeroSalaryVacancy
     [("from", Json.num 0), ("to", Json.num 0), ("currency", Json.str "RUR")] 0 rfl rfl rfl,
   c2_zero_salary.2.2 [("id", Json.num 1)] rfl⟩

/-- C3 (code evaluated at the failing input): a Board A item that omits the
`snippet` key makes `_parse` — and the whole 200-status `get_request` —
raise `AttributeError` instead of producing the placeholder, because line
99 uses the *string* placeholder as the default on which `.get` is then
called. -/
theorem c3_snippet_slip :
    HhAPI.parse hhNoSnippetBody = .error "AttributeError: object has no attribute get" ∧
    HhAPI.get_request (.success 200 hhNoSnippetBody) =
      .error "AttributeError: object has no attribute get" :=
  ⟨rfl, rfl⟩

/-- C4 (counterexample): a catalog whose only node is a childless
*top-level* node named exactly like the city: the claim says its id is
returned, but the search never compares top-level names and returns absent
(after one network call). -/
theorem c4_counterexample :
    ControllerHH.get_city_id "Russia" [AreaNode.mk "1" "Russia" []] = (none, 1) := rfl

/-- C4 (amended): an empty city name returns absent with no network call;
a non-empty city name issues one catalog fetch and returns the id paired
with the first occurrence of the name, in traversal order, among the
searched nodes: third-level nodes under second-level nodes that have
children, and childless second-level nodes themselves — top-level node
names are never consulted, and an unmatched name returns absent. -/
theorem c4_location_search :
    (∀ catalog, ControllerHH.get_city_id "" catalog = (none, 0)) ∧
    (∀ city catalog, city ≠ "" →
        ControllerHH.get_city_id city catalog =
          (firstMatch city (ControllerHH.searchedPairs catalog), 1)) := by
  constructor
  · intro catalog
    rfl
  · intro city catalog h
    unfold ControllerHH.get_city_id
    rw [if_neg (String.length_ne_zero h), ControllerHH.findArea_eq]

/-- C4 (witness): the amended theorem applied to a two-level catalog where
the city is a sub-region. -/
theorem c4_witness :
    ControllerHH.get_city_id "X" [AreaNode.mk "0" "Root" [AreaNode.mk "2" "RU"
      [AreaNode.mk "3" "X" []]]] =
      (firstMatch "X" (ControllerHH.searchedPairs [AreaNode.mk "0" "Root" [AreaNode.mk "2" "RU"
        [AreaNode.mk "3" "X" []]]]), 1) :=
  c4_location_search.2 "X" _ (by decide)

/-- C5 (confirmed): a transport-level failure of any kind makes
`get_request` of either adapter return the empty list, with no exception
escaping. -/
theorem c5_transport_failure :
    ∀ kind, HhAPI.get_request (.transportError kind) = .ok (some []) ∧
      SuperJobAPI.get_request (.transportError kind) = .ok (some []) :=
  fun _ => ⟨rfl, rfl⟩

/-- C6 (confirmed): an HTTP 404 response makes `get_request` of either
adapter raise the hard request-failure error, whatever the body; it is
not swallowed into an empty sequence. -/
theorem c6_not_found :
    ∀ body, HhAPI.get_request (.success 404 body) = .error "Request failed (404 status code)" ∧
      SuperJobAPI.get_request (.success 404 body) = .error "Request failed (404 status code)" :=
  fun _ => ⟨rfl, rfl⟩

/-- C7 (confirmed): the two sort mappers are the stated total functions:
Board A maps "1" to publication_time, "2" to salary_desc and everything
else (absent included) to no parameter; Board B maps "1" to date, "2" to
payment_desc and everything else to the explicit default relevance. -/
theorem c7_sort_mapping :
    ControllerHH.order_by (some "1") = some "publication_time" ∧
    ControllerHH.order_by (some "2") = some "salary_desc" ∧
    (∀ p, p ≠ some "1" → p ≠ some "2" → ControllerHH.order_by p = none) ∧
    ControllerSuperJob.order_by (some "1") = "date" ∧
    ControllerSuperJob.order_by (some "2") = "payment_desc" ∧
    (∀ p, p ≠ some "1" → p ≠ some "2" → ControllerSuperJob.order_by p = "relevance") := by
  refine ⟨rfl, rfl, ?_, rfl, rfl, ?_⟩
  · intro p h1 h2
    simp [ControllerHH.order_by, h1, h2]
  · intro p h1 h2
    simp [ControllerSuperJob.order_by, h1, h2]

/-- C7 (witness): the default branches applied to the absent parameter. -/
theorem c7_witness :
    ControllerHH.order_by none = none ∧ ControllerSuperJob.order_by none = "relevance" :=
  ⟨c7_sort_mapping.2.2.1 none (by decide) (by decide),
   c7_sort_mapping.2.2.2.2.2 none (by decide) (by decide)⟩

/-- C8 (confirmed): Board B city validation: an empty name returns absent
with no network call; a non-empty name issues one town-list fetch and
returns the name itself exactly when some town title matches it
case-sensitively, absent otherwise (so any near-match is absent). -/
theorem c8_validate_city :
    (∀ towns, ControllerSuperJob.validate_city "" towns = (none, 0)) ∧
    (∀ city towns, city ≠ "" → (∃ t ∈ towns, t.title = city) →
        ControllerSuperJob.validate_city city towns = (some city, 1)) ∧
    (∀ city towns, city ≠ "" → (∀ t ∈ towns, t.title ≠ city) →
        ControllerSuperJob.validate_city city towns = (none, 1)) := by
  refine ⟨fun towns => rfl, ?_, ?_⟩
  · intro city towns h hex
    unfold ControllerSuperJob.validate_city
    rw [if_neg (String.length_ne_zero h), ControllerSuperJob.findTown_eq_some hex]
  · intro city towns h hnone
    unfold ControllerSuperJob.validate_city
    rw [if_neg (String.length_ne_zero h), ControllerSuperJob.findTown_eq_none hnone]

/-- C8 (witness): exact match accepted, case-only near-match rejected. -/
theorem c8_witness :
    ControllerSuperJob.validate_city "Moscow" [Town.mk 1 "Moscow"] = (some "Moscow", 1) ∧
    ControllerSuperJob.validate_city "moscow" [Town.mk 1 "Moscow"] = (none, 1) :=
  ⟨c8_validate_city.2.1 "Moscow" [Town.mk 1 "Moscow"] (by decide) ⟨Town.mk 1 "Moscow", List.Mem.head _, rfl⟩,
   c8_validate_city.2.2 "moscow" [Town.mk 1 "Moscow"] (by decide) (by decide)⟩

/-- C9 (confirmed): a 200 response whose body reports `found = 0` makes
Board A's `get_request` return the empty list. -/
theorem c9_found_zero :
    ∀ body, body.lookup "found" = some (Json.num 0) →
      HhAPI.get_request (.success 200 body) = .ok (some []) := by
  intro body h
  simp [HhAPI.get_request, h, Json.pyEqZero]

/-- C9 (witness): the theorem applied to the concrete empty-result body. -/
theorem c9_witness :
    HhAPI.get_request (.success 200 (Json.obj [("found", Json.num 0)])) = .ok (some []) :=
  c9_found_zero (Json.obj [("found", Json.num 0)]) rfl

/-- C10 (confirmed): any HTTP status other than 200 and 404 makes
`get_request` of either adapter fall through both branches and return the
implicit `None` — neither a list of vacancies nor a raised error. -/
theorem c10_other_status :
    ∀ status body, status ≠ 200 → status ≠ 404 →
      HhAPI.get_request (.success status body) = .ok none ∧
      SuperJobAPI.get_request (.success status body) = .ok none := by
  intro status body h1 h2
  exact ⟨by simp [HhAPI.get_request, h1, h2], by simp [SuperJobAPI.get_request, h1, h2]⟩

/-- C10 (witness): the theorem applied to status 500. -/
theorem c10_witness :
    HhAPI.get_request (.success 500 Json.null) = .ok none ∧
    SuperJobAPI.get_request (.success 500 Json.null) = .ok none :=
  c10_other_status 500 Json.null (by decide) (by decide)
